import Mathlib

/-!
Redis connector: transaction coordinator and error classifier.

A shallow embedding of `Private/transaction.cpp` and `Private/errors.cpp` of the
`DTRedisLib` module (namespace `sw::redis`), followed by theorems about it.

Conventions of the embedding:

* A C++ `std::string` is a Lean `String`; the only characters the code inspects
  are the ASCII space and newline.
* A C++ function that may throw returns an `Except`; a function that also mutates
  its object or the connection returns the outcome together with the state it
  leaves behind, so the state after a throw is observable.
* `assert` is taken to be active: a failed assertion is the outcome
  `Failure.assertion`, distinct from every thrown exception.
-/

namespace Redis

/-! ## Exceptions (classes declared in `errors.h`) -/

/-- Exception objects thrown by the library, one constructor per C++ class that
the two source files construct. The spec's kinds are: `Error` = Generic,
`IoError` = Io, `TimeoutError` = Timeout, `ClosedError` = ClosedConnection,
`ProtoError` = Protocol, `OomError` = OutOfMemory, `ReplyError`,
`WatchError` = WatchAborted, `MovedError` = Moved, `AskError` = Ask.
Each constructor takes the arguments of the C++ constructor call; `WatchError()`
takes none. -/
inductive Exception where
  | Error (msg : String)
  | IoError (msg : String)
  | TimeoutError (msg : String)
  | ClosedError (msg : String)
  | ProtoError (msg : String)
  | OomError (msg : String)
  | ReplyError (msg : String)
  | WatchError
  | MovedError (msg : String)
  | AskError (msg : String)
  deriving DecidableEq, Repr

/-- The ways a call can end without returning: a thrown exception, or a failed
`assert` (the text of the asserted expression is recorded). -/
inductive Failure where
  | thrown (e : Exception)
  | assertion (expr : String)
  deriving DecidableEq, Repr

/-- The message an exception object was constructed with; `WatchError()` is
constructed without one. -/
def Exception.message : Exception → Option String
  | .Error msg => some msg
  | .IoError msg => some msg
  | .TimeoutError msg => some msg
  | .ClosedError msg => some msg
  | .ProtoError msg => some msg
  | .OomError msg => some msg
  | .ReplyError msg => some msg
  | .WatchError => none
  | .MovedError msg => some msg
  | .AskError msg => some msg

/-! ## Replies (hiredis `redisReply`, declared outside the two source files) -/

/-- Modelled from the spec: the hiredis reply node `redisReply`, whose declaration
is not among the source files. `type` is the reply tag, `str` the text
(`none` for a null pointer; `len` is its length), `element` the child array
(`none` for a null pointer, otherwise one slot per child, a slot being `none`
when the child pointer is null); `elements` is the length of that array. -/
inductive redisReply where
  | mk (type : Int) (integer : Int) (str : Option String)
       (element : Option (List (Option redisReply)))

/-- Field `type` of a reply. -/
def redisReply.type : redisReply → Int
  | .mk t _ _ _ => t

/-- Field `integer` of a reply. -/
def redisReply.integer : redisReply → Int
  | .mk _ i _ _ => i

/-- Field `str` of a reply, `none` when the pointer is null. -/
def redisReply.str : redisReply → Option String
  | .mk _ _ s _ => s

/-- Field `element` of a reply, `none` when the pointer is null. -/
def redisReply.element : redisReply → Option (List (Option redisReply))
  | .mk _ _ _ e => e

/-- Field `elements` of a reply: the number of slots of `element`. -/
def redisReply.elements (r : redisReply) : Nat :=
  match r.element with
  | none => 0
  | some slots => slots.length

/-- Modelled from the spec: tag of the bulk string shape of a reply; the value is that of
the hiredis constant of this name, whose header is not among the source files. -/
def REDIS_REPLY_STRING : Int := 1
/-- Modelled from the spec: tag of the array shape of a reply; the value is that of
the hiredis constant of this name, whose header is not among the source files. -/
def REDIS_REPLY_ARRAY : Int := 2
/-- Modelled from the spec: tag of the integer shape of a reply; the value is that of
the hiredis constant of this name, whose header is not among the source files. -/
def REDIS_REPLY_INTEGER : Int := 3
/-- Modelled from the spec: tag of the nil shape of a reply; the value is that of
the hiredis constant of this name, whose header is not among the source files. -/
def REDIS_REPLY_NIL : Int := 4
/-- Modelled from the spec: tag of the status shape of a reply; the value is that of
the hiredis constant of this name, whose header is not among the source files. -/
def REDIS_REPLY_STATUS : Int := 5
/-- Modelled from the spec: tag of the error shape of a reply; the value is that of
the hiredis constant of this name, whose header is not among the source files. -/
def REDIS_REPLY_ERROR : Int := 6

/-- Modelled from the spec: `reply::is_nil` (reply.h is not among the source
files): the reply has the Nil shape. -/
def reply.is_nil (rp : redisReply) : Bool :=
  rp.type == REDIS_REPLY_NIL

/-- Modelled from the spec: `reply::is_array` (reply.h is not among the source
files): the reply has the Array shape. -/
def reply.is_array (rp : redisReply) : Bool :=
  rp.type == REDIS_REPLY_ARRAY

/-- Modelled from the spec: `reply::to_status` (reply.cpp is not among the source
files): generic status parsing. A Status reply yields its text; any other
shape, or a Status reply without text, fails. The spec leaves the kind of that
failure open ("whatever the generic status-parsing error is"); `ProtoError` is
used here and no theorem below depends on the choice. -/
def reply.to_status (rp : redisReply) : Except Exception String :=
  if rp.type = REDIS_REPLY_STATUS then
    match rp.str with
    | some text => .ok text
    | none => .error (.ProtoError "A null status reply")
  else
    .error (.ProtoError "Expect STATUS reply")

/-- Modelled from the spec: `reply::parse<void>` (reply.cpp is not among the
source files). The spec requires "a Status reply (its exact text is not further
constrained beyond successful generic status parsing)": it succeeds exactly
when generic status parsing does and drops the text. -/
def reply.parse_void (rp : redisReply) : Except Exception Unit :=
  match reply.to_status rp with
  | .ok _ => .ok ()
  | .error e => .error e

/-! ## Connection (collaborator, declared outside the two source files) -/

/-- The commands the transaction code sends. -/
inductive Command where
  | MULTI
  | EXEC
  | DISCARD
  deriving DecidableEq, Repr

/-- Modelled from the spec: the `Connection` collaborator ("a blocking send
command and receive one reply operation"; connection.cpp is not among the
source files). `pending` lists the outcome of each future `recv()` call in
order, a reply or the exception the receive raises; `closed` is what `recv()`
raises once `pending` is used up; `sent` logs the commands sent, oldest
first. -/
structure Connection where
  pending : List (Except Exception redisReply)
  closed : Exception
  sent : List Command

/-- Modelled from the spec: `Connection::send`. The command is appended to the
log; the spec gives `send` no result, transport trouble is delivered by
`recv`. -/
def Connection.send (connection : Connection) (c : Command) : Connection :=
  { connection with sent := connection.sent ++ [c] }

/-- Modelled from the spec: `Connection::recv`, "receive one reply": consumes the
next pending outcome, returning the reply or raising the failure. -/
def Connection.recv (connection : Connection) : Except Exception redisReply × Connection :=
  match connection.pending with
  | [] => (.error connection.closed, connection)
  | outcome :: rest => (outcome, { connection with pending := rest })

/-- Modelled from the spec: `cmd::multi` sends the MULTI command. -/
def cmd.multi (connection : Connection) : Connection :=
  connection.send .MULTI

/-- Modelled from the spec: `cmd::exec` sends the EXEC command. -/
def cmd.exec (connection : Connection) : Connection :=
  connection.send .EXEC

/-- Modelled from the spec: `cmd::discard` sends the DISCARD command. -/
def cmd.discard (connection : Connection) : Connection :=
  connection.send .DISCARD

/-! ## errors.cpp -/

/-- Enumeration `ReplyErrorType` of errors.h. -/
inductive ReplyErrorType where
  | ERR
  | MOVED
  | ASK
  deriving DecidableEq, Repr

/-- The table `error_map` (errors.cpp, lines 17-20). -/
def error_map : List (String × ReplyErrorType) :=
  [("MOVED", .MOVED), ("ASK", .ASK)]

/-- The call `std::string::find_first_of(chars)`: index of the first character
of `s` that occurs in `chars`, `none` for `npos`. -/
def find_first_of (s : List Char) (chars : List Char) : Option Nat :=
  match s with
  | [] => none
  | c :: cs =>
    if c ∈ chars then some 0
    else
      match find_first_of cs chars with
      | none => none
      | some i => some (i + 1)

/-- The call `std::string::substr(pos, count)`; `count = none` is the one-argument
form. Both call sites of `parse_error` have `pos` within the string, so the
`out_of_range` exception of `substr` cannot arise and is not modelled. -/
def substr (s : String) (pos : Nat) (count : Option Nat) : String :=
  match count with
  | none => String.mk (s.data.drop pos)
  | some n => String.mk ((s.data.drop pos).take n)

/-- Function `parse_error` (errors.cpp, lines 109-127). -/
def parse_error (err : String) : Except Exception (ReplyErrorType × String) :=
  match find_first_of err.data [' ', '\n'] with
  | none => .error (.ProtoError ("No Error Prefix: " ++ err))
  | some idx =>
    let err_pre := substr err 0 (some idx)
    let err_type :=
      match error_map.lookup err_pre with
      | some ty => ty
      | none => ReplyErrorType.ERR
    .ok (err_type, substr err (idx + 1) none)

/-- Function `throw_error(const redisReply &)` (errors.cpp, lines 73-99). It never
returns: the result is what it throws, or the failed assertion. -/
def redisReply.throw_error (rp : redisReply) : Failure :=
  if rp.type ≠ REDIS_REPLY_ERROR then .assertion "reply.type == REDIS_REPLY_ERROR"
  else
    match rp.str with
    | none => .thrown (.Error "Null error reply")
    | some err_str =>
      match parse_error err_str with
      | .error e => .thrown e
      | .ok (err_type, err_msg) =>
        match err_type with
        | .MOVED => .thrown (.MovedError err_msg)
        | .ASK => .thrown (.AskError err_msg)
        | .ERR => .thrown (.ReplyError err_str)

/-- Modelled from the spec: the hiredis connection context `redisContext`, whose
declaration is not among the source files; only the two fields that
`throw_error` reads. `err` is the error code, `errstr` the last-error text
(`none` for a null pointer, the spec's "no error text is available"). -/
structure redisContext where
  err : Int
  errstr : Option String
  deriving DecidableEq, Repr

/-- Modelled from the spec: the I/O-class error code; the value is that of the
hiredis constant of this name, whose header is not among the source files. -/
def REDIS_ERR_IO : Int := 1
/-- Modelled from the spec: the code of every other failure; the value is that of
the hiredis constant of this name. -/
def REDIS_ERR_OTHER : Int := 2
/-- Modelled from the spec: the end-of-stream code; the value is that of the
hiredis constant of this name. -/
def REDIS_ERR_EOF : Int := 3
/-- Modelled from the spec: the malformed-response code; the value is that of the
hiredis constant of this name. -/
def REDIS_ERR_PROTOCOL : Int := 4
/-- Modelled from the spec: the allocation-failure code; the value is that of the
hiredis constant of this name. -/
def REDIS_ERR_OOM : Int := 5
/-- Modelled from the spec: the explicit timeout code, "if the platform
distinguishes one"; the value is that of the hiredis constant of this name. -/
def REDIS_ERR_TIMEOUT : Int := 6

/-- What the build fixes and the source files do not: the values of the `<cerrno>`
macros `EAGAIN`, `EWOULDBLOCK` and `ETIMEDOUT`, and whether the macro
`REDIS_ERR_TIMEOUT` is defined (the `#ifdef` of errors.cpp, line 62). -/
structure Build where
  EAGAIN : Int
  EWOULDBLOCK : Int
  ETIMEDOUT : Int
  has_REDIS_ERR_TIMEOUT : Bool
  deriving DecidableEq, Repr

/-- The call `std::to_string(int)`: the decimal rendering, with a leading minus
sign for a negative value. -/
def to_string (n : Int) : String :=
  toString n

/-- Function `throw_error(const redisContext &, const std::string &)` (errors.cpp,
lines 28-71). It never returns: the result is the exception it throws. The
global `errno` it reads is the argument `errno`. -/
def redisContext.throw_error (b : Build) (context : redisContext) (errno : Int)
    (err_info : String) : Exception :=
  let err_code := context.err
  match context.errstr with
  | none => .Error (err_info ++ ": null error message: " ++ to_string err_code)
  | some err_str =>
    let err_msg := err_info ++ ": " ++ err_str
    if err_code = REDIS_ERR_IO then
      if errno = b.EAGAIN ∨ errno = b.EWOULDBLOCK ∨ errno = b.ETIMEDOUT then
        .TimeoutError err_msg
      else
        .IoError err_msg
    else if err_code = REDIS_ERR_EOF then .ClosedError err_msg
    else if err_code = REDIS_ERR_PROTOCOL then .ProtoError err_msg
    else if err_code = REDIS_ERR_OOM then .OomError err_msg
    else if err_code = REDIS_ERR_OTHER then .Error err_msg
    else if b.has_REDIS_ERR_TIMEOUT = true ∧ err_code = REDIS_ERR_TIMEOUT then
      .TimeoutError err_msg
    else .Error ("unknown error code: " ++ err_msg)

/-! ## Reading of the spec's "prefix token" -/

/-- The spec's separator test: the character is a space or a newline. -/
def isSeparator (c : Char) : Bool :=
  c == ' ' || c == '\n'

/-- The spec's prefix token, written from its words and not from the code: the
characters of `text` before its first space or newline. -/
def leadingToken (text : String) : String :=
  String.mk (text.data.takeWhile (fun c => !isSeparator c))

/-- The spec's remainder, written from its words and not from the code: the
characters of `text` after its first space or newline. -/
def afterFirstSeparator (text : String) : String :=
  String.mk ((text.data.dropWhile (fun c => !isSeparator c)).drop 1)

/-! ## transaction.cpp -/

/-- Class `TransactionImpl` (transaction.h): `_in_transaction` is the spec's
`is_open`, `_piped` the spec's `is_pipelined`. -/
structure TransactionImpl where
  _in_transaction : Bool
  _piped : Bool
  deriving DecidableEq, Repr

/-- Method `_open_transaction` (transaction.cpp, lines 27-38). -/
def TransactionImpl._open_transaction (t : TransactionImpl) (connection : Connection) :
    Except Failure Unit × TransactionImpl × Connection :=
  if t._in_transaction then (.error (.assertion "!_in_transaction"), t, connection)
  else
    let c1 := cmd.multi connection
    match c1.recv with
    | (.error e, c2) => (.error (.thrown e), t, c2)
    | (.ok rp, c2) =>
      match reply.to_status rp with
      | .error e => (.error (.thrown e), t, c2)
      | .ok status =>
        if status ≠ "OK" then
          (.error (.thrown (.Error ("Failed to open transaction: " ++ status))), t, c2)
        else
          (.ok (), { t with _in_transaction := true }, c2)

/-- Method `_close_transaction` (transaction.cpp, lines 40-46). -/
def TransactionImpl._close_transaction (t : TransactionImpl) :
    Except Exception Unit × TransactionImpl :=
  if !t._in_transaction then (.error (.Error "No command in transaction"), t)
  else (.ok (), { t with _in_transaction := false })

/-- Method `_get_queued_reply` (transaction.cpp, lines 48-54). -/
def TransactionImpl._get_queued_reply (connection : Connection) :
    Except Exception Unit × Connection :=
  match connection.recv with
  | (.error e, c1) => (.error e, c1)
  | (.ok rp, c1) =>
    match reply.to_status rp with
    | .error e => (.error e, c1)
    | .ok status =>
      if status ≠ "QUEUED" then (.error (.Error ("Invalid QUEUED reply: " ++ status)), c1)
      else (.ok (), c1)

/-- The loop `while (cmd_num > 0)` of `_get_queued_replies` (lines 59-63). -/
def TransactionImpl._get_queued_replies_loop (connection : Connection) :
    Nat → Except Exception Unit × Connection
  | 0 => (.ok (), connection)
  | cmd_num + 1 =>
    match TransactionImpl._get_queued_reply connection with
    | (.error e, c1) => (.error e, c1)
    | (.ok _, c1) => TransactionImpl._get_queued_replies_loop c1 cmd_num

/-- Method `_get_queued_replies` (transaction.cpp, lines 56-65). -/
def TransactionImpl._get_queued_replies (t : TransactionImpl) (connection : Connection)
    (cmd_num : Nat) : Except Exception Unit × Connection :=
  if t._piped then TransactionImpl._get_queued_replies_loop connection cmd_num
  else (.ok (), connection)

/-- The loop `for (idx = 0; idx != reply->elements; ++idx)` of `_exec`
(lines 88-97), over the remaining slots and the vector `replies` built so far.
Nulling the parent's slot is not observable: the parent reply is a local that
is released when `_exec` ends. -/
def TransactionImpl._exec_loop :
    List (Option redisReply) → List redisReply → Except Exception (List redisReply)
  | [], replies => .ok replies
  | none :: _, _ => .error (.ProtoError "Null sub reply")
  | some sub_reply :: rest, replies =>
    TransactionImpl._exec_loop rest (replies ++ [sub_reply])

/-- Method `_exec` (transaction.cpp, lines 67-100). -/
def TransactionImpl._exec (connection : Connection) :
    Except Exception (List redisReply) × Connection :=
  let c1 := cmd.exec connection
  match c1.recv with
  | (.error e, c2) => (.error e, c2)
  | (.ok rp, c2) =>
    if reply.is_nil rp then (.error .WatchError, c2)
    else if !reply.is_array rp then (.error (.ProtoError "Expect ARRAY reply"), c2)
    else
      match rp.element with
      | none => (.error (.ProtoError "Null ARRAY reply"), c2)
      | some slots =>
        if rp.elements = 0 then (.error (.ProtoError "Null ARRAY reply"), c2)
        else (TransactionImpl._exec_loop slots [], c2)

/-- Method `_discard` (transaction.cpp, lines 102-106). -/
def TransactionImpl._discard (connection : Connection) :
    Except Exception Unit × Connection :=
  let c1 := cmd.discard connection
  match c1.recv with
  | (.error e, c2) => (.error e, c2)
  | (.ok rp, c2) => (reply.parse_void rp, c2)

/-- Method `exec` (transaction.cpp, lines 11-17). -/
def TransactionImpl.exec (t : TransactionImpl) (connection : Connection) (cmd_num : Nat) :
    Except Exception (List redisReply) × TransactionImpl × Connection :=
  match t._close_transaction with
  | (.error e, t1) => (.error e, t1, connection)
  | (.ok _, t1) =>
    match t1._get_queued_replies connection cmd_num with
    | (.error e, c1) => (.error e, t1, c1)
    | (.ok _, c1) =>
      match TransactionImpl._exec c1 with
      | (res, c2) => (res, t1, c2)

/-- Method `discard` (transaction.cpp, lines 19-25). -/
def TransactionImpl.discard (t : TransactionImpl) (connection : Connection) (cmd_num : Nat) :
    Except Exception Unit × TransactionImpl × Connection :=
  match t._close_transaction with
  | (.error e, t1) => (.error e, t1, connection)
  | (.ok _, t1) =>
    match t1._get_queued_replies connection cmd_num with
    | (.error e, c1) => (.error e, t1, c1)
    | (.ok _, c1) =>
      match TransactionImpl._discard c1 with
      | (res, c2) => (res, t1, c2)

/-! ## Sequences of calls on one transaction object -/

/-- A use of a transaction object: one of the three methods of transaction.cpp
with its arguments. -/
inductive Call where
  | exec (connection : Connection) (cmd_num : Nat)
  | discard (connection : Connection) (cmd_num : Nat)
  | open_transaction (connection : Connection)

/-- The transaction object as the call leaves it. -/
def Call.apply (t : TransactionImpl) : Call → TransactionImpl
  | .exec connection cmd_num => (t.exec connection cmd_num).2.1
  | .discard connection cmd_num => (t.discard connection cmd_num).2.1
  | .open_transaction connection => (t._open_transaction connection).2.1

/-- Whether the call, made on `t`, is an `_open_transaction` that returns
normally. -/
def Call.reopens (t : TransactionImpl) : Call → Bool
  | .exec _ _ => false
  | .discard _ _ => false
  | .open_transaction connection =>
    match (t._open_transaction connection).1 with
    | .ok _ => true
    | .error _ => false

/-- The transaction object after the calls are made on it one after the other. -/
def applyCalls (t : TransactionImpl) : List Call → TransactionImpl
  | [] => t
  | call :: rest => applyCalls (call.apply t) rest

/-- Whether none of the calls, made on `t` one after the other, is an
`_open_transaction` that returns normally. -/
def neverReopened (t : TransactionImpl) : List Call → Bool
  | [] => true
  | call :: rest => !call.reopens t && neverReopened (call.apply t) rest

/-! ## Concrete replies used in the examples -/

/-- A Status reply with the given text. -/
def statusReply (text : String) : redisReply :=
  .mk REDIS_REPLY_STATUS 0 (some text) none

/-- A Nil reply. -/
def nilReply : redisReply :=
  .mk REDIS_REPLY_NIL 0 none none

/-- An Integer reply. -/
def integerReply (v : Int) : redisReply :=
  .mk REDIS_REPLY_INTEGER v none none

/-- An Array reply over the given slots. -/
def arrayReply (slots : List (Option redisReply)) : redisReply :=
  .mk REDIS_REPLY_ARRAY 0 none (some slots)

/-- An Error reply with the given text. -/
def errorReply (text : String) : redisReply :=
  .mk REDIS_REPLY_ERROR 0 (some text) none

/-! ## Auxiliary facts about the embedding -/

theorem close_transaction_open (t : TransactionImpl) (h : t._in_transaction = true) :
    t._close_transaction = (.ok (), { t with _in_transaction := false }) := by
  simp [TransactionImpl._close_transaction, h]

theorem close_transaction_closed (t : TransactionImpl) (h : t._in_transaction = false) :
    t._close_transaction = (.error (.Error "No command in transaction"), t) := by
  simp [TransactionImpl._close_transaction, h]

theorem close_transaction_flag (t : TransactionImpl) :
    t._close_transaction.2._in_transaction = false := by
  cases h : t._in_transaction
  · rw [close_transaction_closed t h]; exact h
  · rw [close_transaction_open t h]

theorem exec_loop_all_present (subs replies : List redisReply) :
    TransactionImpl._exec_loop (subs.map some) replies = .ok (replies ++ subs) := by
  induction subs generalizing replies with
  | nil => simp [TransactionImpl._exec_loop]
  | cons s rest ih => simp [TransactionImpl._exec_loop, ih]

theorem recv_cons (outcome : Except Exception redisReply)
    (rest : List (Except Exception redisReply)) (closed : Exception) (sent : List Command) :
    Connection.recv ⟨outcome :: rest, closed, sent⟩ = (outcome, ⟨rest, closed, sent⟩) := rfl

theorem exec_after_acks (t : TransactionImpl) (connection c1 : Connection) (cmd_num : Nat)
    (hopen : t._in_transaction = true)
    (hack : t._get_queued_replies connection cmd_num = (.ok (), c1)) :
    t.exec connection cmd_num =
      ((TransactionImpl._exec c1).1, { t with _in_transaction := false },
        (TransactionImpl._exec c1).2) := by
  have hack1 : TransactionImpl._get_queued_replies
      { t with _in_transaction := false } connection cmd_num = (.ok (), c1) := hack
  simp [TransactionImpl.exec, close_transaction_open t hopen, hack1]

theorem discard_after_acks (t : TransactionImpl) (connection c1 : Connection) (cmd_num : Nat)
    (hopen : t._in_transaction = true)
    (hack : t._get_queued_replies connection cmd_num = (.ok (), c1)) :
    t.discard connection cmd_num =
      ((TransactionImpl._discard c1).1, { t with _in_transaction := false },
        (TransactionImpl._discard c1).2) := by
  have hack1 : TransactionImpl._get_queued_replies
      { t with _in_transaction := false } connection cmd_num = (.ok (), c1) := hack
  simp [TransactionImpl.discard, close_transaction_open t hopen, hack1]

theorem exec_recv_reply (c1 : Connection) (rp : redisReply)
    (rest : List (Except Exception redisReply)) (hnext : c1.pending = .ok rp :: rest) :
    (cmd.exec c1).recv = (.ok rp, { c1 with pending := rest, sent := c1.sent ++ [.EXEC] }) := by
  simp [cmd.exec, Connection.send, Connection.recv, hnext]

theorem exec_leaves_closed (t : TransactionImpl) (connection : Connection) (cmd_num : Nat) :
    (t.exec connection cmd_num).2.1._in_transaction = false := by
  have hflag := close_transaction_flag t
  unfold TransactionImpl.exec
  split
  · exact (by simp_all)
  · split <;> simp_all

theorem discard_leaves_closed (t : TransactionImpl) (connection : Connection)
    (cmd_num : Nat) :
    (t.discard connection cmd_num).2.1._in_transaction = false := by
  have hflag := close_transaction_flag t
  unfold TransactionImpl.discard
  split
  · exact (by simp_all)
  · split <;> simp_all

theorem exec_on_closed (t : TransactionImpl) (connection : Connection) (cmd_num : Nat)
    (h : t._in_transaction = false) :
    t.exec connection cmd_num =
      (.error (.Error "No command in transaction"), t, connection) := by
  simp [TransactionImpl.exec, close_transaction_closed t h]

theorem discard_on_closed (t : TransactionImpl) (connection : Connection) (cmd_num : Nat)
    (h : t._in_transaction = false) :
    t.discard connection cmd_num =
      (.error (.Error "No command in transaction"), t, connection) := by
  simp [TransactionImpl.discard, close_transaction_closed t h]

theorem get_queued_reply_ack (q : redisReply) (rest : List (Except Exception redisReply))
    (closed : Exception) (sent : List Command)
    (hty : q.type = REDIS_REPLY_STATUS) (hstr : q.str = some "QUEUED") :
    TransactionImpl._get_queued_reply ⟨.ok q :: rest, closed, sent⟩ =
      (.ok (), ⟨rest, closed, sent⟩) := by
  simp [TransactionImpl._get_queued_reply, recv_cons, reply.to_status, hty, hstr]

theorem get_queued_reply_bad (bad : redisReply) (text : String)
    (rest : List (Except Exception redisReply)) (closed : Exception) (sent : List Command)
    (hty : bad.type = REDIS_REPLY_STATUS) (hstr : bad.str = some text)
    (hne : text ≠ "QUEUED") :
    TransactionImpl._get_queued_reply ⟨.ok bad :: rest, closed, sent⟩ =
      (.error (.Error ("Invalid QUEUED reply: " ++ text)), ⟨rest, closed, sent⟩) := by
  simp [TransactionImpl._get_queued_reply, recv_cons, reply.to_status, hty, hstr, hne]

theorem get_queued_replies_loop_acks (acks : List redisReply)
    (rest : List (Except Exception redisReply)) (closed : Exception) (sent : List Command)
    (more : Nat)
    (hq : ∀ q ∈ acks, q.type = REDIS_REPLY_STATUS ∧ q.str = some "QUEUED") :
    TransactionImpl._get_queued_replies_loop ⟨acks.map .ok ++ rest, closed, sent⟩
        (acks.length + more) =
      TransactionImpl._get_queued_replies_loop ⟨rest, closed, sent⟩ more := by
  induction acks with
  | nil => simp
  | cons q qs ih =>
    have hhead := hq q (List.mem_cons_self q qs)
    have htail : ∀ x ∈ qs, x.type = REDIS_REPLY_STATUS ∧ x.str = some "QUEUED" :=
      fun x hx => hq x (List.mem_cons_of_mem q hx)
    have hlen : (q :: qs).length + more = (qs.length + more) + 1 := by
      simp [List.length_cons]; omega
    rw [hlen]
    simp only [List.map_cons, List.cons_append, TransactionImpl._get_queued_replies_loop,
      get_queued_reply_ack q _ closed sent hhead.1 hhead.2]
    exact ih htail

theorem discard_recv_reply (c1 : Connection) (rp : redisReply)
    (rest : List (Except Exception redisReply)) (hnext : c1.pending = .ok rp :: rest) :
    (cmd.discard c1).recv =
      (.ok rp, { c1 with pending := rest, sent := c1.sent ++ [.DISCARD] }) := by
  simp [cmd.discard, Connection.send, Connection.recv, hnext]

theorem discard_state_of_open (t : TransactionImpl) (connection : Connection)
    (cmd_num : Nat) (hopen : t._in_transaction = true) :
    (t.discard connection cmd_num).2.1 = { t with _in_transaction := false } := by
  simp only [TransactionImpl.discard, close_transaction_open t hopen]
  split <;> rfl

theorem find_first_of_split (p r : List Char) (sep : Char) (chars : List Char)
    (hp : ∀ c ∈ p, c ∉ chars) (hsep : sep ∈ chars) :
    find_first_of (p ++ sep :: r) chars = some p.length := by
  induction p with
  | nil => simp [find_first_of, hsep]
  | cons c cs ih =>
    have hc : c ∉ chars := hp c (List.mem_cons_self c cs)
    have hcs : ∀ x ∈ cs, x ∉ chars := fun x hx => hp x (List.mem_cons_of_mem c hx)
    simp [find_first_of, hc, ih hcs]

theorem drop_past_separator (p r : List Char) (sep : Char) :
    List.drop (p.length + 1) (p ++ sep :: r) = r := by
  induction p with
  | nil => simp
  | cons c cs ih => simp

theorem parse_error_split (pre rem : String) (sep : Char)
    (hsep : sep = ' ' ∨ sep = '\n')
    (hpre : ∀ c ∈ pre.data, c ≠ ' ' ∧ c ≠ '\n') :
    parse_error (pre ++ String.singleton sep ++ rem) =
      .ok ((match error_map.lookup pre with
            | some ty => ty
            | none => ReplyErrorType.ERR), rem) := by
  have hdata : (pre ++ String.singleton sep ++ rem).data = pre.data ++ sep :: rem.data := by
    simp [String.data_append, String.singleton]
  have hmem : sep ∈ [' ', '\n'] := by
    rcases hsep with h | h <;> simp [h]
  have hnot : ∀ c ∈ pre.data, c ∉ [' ', '\n'] := by
    intro c hc
    have := hpre c hc
    simp [this.1, this.2]
  have hfind := find_first_of_split pre.data rem.data sep [' ', '\n'] hnot hmem
  have hdrop := drop_past_separator pre.data rem.data sep
  unfold parse_error
  rw [hdata, hfind]
  simp [substr, hdata]
  show String.mk (List.drop (pre.data.length + 1) (pre.data ++ sep :: rem.data)) = rem
  rw [hdrop]

theorem open_transaction_connection (t : TransactionImpl) (connection : Connection)
    (hclosed : t._in_transaction = false) :
    (t._open_transaction connection).2.2 =
      { connection with pending := connection.pending.tail,
                        sent := connection.sent ++ [.MULTI] } := by
  have hrecv : ((cmd.multi connection).recv).2 =
      { connection with pending := connection.pending.tail,
                        sent := connection.sent ++ [.MULTI] } := by
    cases hp : connection.pending <;>
      simp [cmd.multi, Connection.send, Connection.recv, hp]
  simp only [TransactionImpl._open_transaction, hclosed]
  rw [← hrecv]
  simp only [Bool.false_eq_true, if_false]
  split
  · simp_all
  · split
    · simp_all
    · split <;> simp_all

theorem find_first_of_separator (l : List Char) (h : ∃ c ∈ l, isSeparator c = true) :
    find_first_of l [' ', '\n'] =
      some (l.takeWhile (fun c => !isSeparator c)).length := by
  induction l with
  | nil => simp at h
  | cons a as ih =>
    by_cases ha : isSeparator a = true
    · have hmem : a ∈ [' ', '\n'] := by
        simpa [isSeparator] using ha
      simp [find_first_of, hmem, List.takeWhile, ha]
    · have hmem : a ∉ [' ', '\n'] := by
        simpa [isSeparator] using ha
      have hrest : ∃ c ∈ as, isSeparator c = true := by
        obtain ⟨c, hc, hs⟩ := h
        rcases List.mem_cons.mp hc with rfl | hc2
        · exact absurd hs ha
        · exact ⟨c, hc2, hs⟩
      have hab : isSeparator a = false := by simpa using ha
      simp [find_first_of, hmem, ih hrest, List.takeWhile, hab]

theorem find_first_of_none (l : List Char) (h : ∀ c ∈ l, isSeparator c = false) :
    find_first_of l [' ', '\n'] = none := by
  induction l with
  | nil => simp [find_first_of]
  | cons a as ih =>
    have ha := h a (List.mem_cons_self a as)
    have hmem : a ∉ [' ', '\n'] := by
      simpa [isSeparator] using ha
    have hrest : ∀ c ∈ as, isSeparator c = false :=
      fun c hc => h c (List.mem_cons_of_mem a hc)
    simp [find_first_of, hmem, ih hrest]

theorem take_takeWhile_length (p : Char → Bool) (l : List Char) :
    l.take (l.takeWhile p).length = l.takeWhile p := by
  induction l with
  | nil => simp
  | cons a as ih =>
    cases hp : p a <;> simp [List.takeWhile, hp, ih]

theorem drop_takeWhile_length (p : Char → Bool) (l : List Char) :
    l.drop ((l.takeWhile p).length + 1) = (l.dropWhile p).drop 1 := by
  induction l with
  | nil => simp
  | cons a as ih =>
    cases hp : p a <;> simp [List.takeWhile, List.dropWhile, hp, ih]

theorem parse_error_of_separator (text : String)
    (h : ∃ c ∈ text.data, isSeparator c = true) :
    parse_error text =
      .ok ((match error_map.lookup (leadingToken text) with
            | some ty => ty
            | none => ReplyErrorType.ERR), afterFirstSeparator text) := by
  unfold parse_error
  rw [find_first_of_separator text.data h]
  simp only [substr, List.drop_zero, take_takeWhile_length, drop_takeWhile_length,
    leadingToken, afterFirstSeparator]

theorem parse_error_without_separator (text : String)
    (h : ∀ c ∈ text.data, isSeparator c = false) :
    parse_error text = .error (.ProtoError ("No Error Prefix: " ++ text)) := by
  unfold parse_error
  rw [find_first_of_none text.data h]

theorem error_map_lookup (token : String) :
    (match error_map.lookup token with
      | some ty => ty
      | none => ReplyErrorType.ERR) =
      (if token = "MOVED" then ReplyErrorType.MOVED
       else if token = "ASK" then ReplyErrorType.ASK else ReplyErrorType.ERR) := by
  by_cases h1 : token = "MOVED"
  · subst h1; rfl
  · by_cases h2 : token = "ASK"
    · subst h2; rfl
    · have e1 : (token == "MOVED") = false := by simpa using h1
      have e2 : (token == "ASK") = false := by simpa using h2
      simp [error_map, List.lookup, e1, e2, h1, h2]

theorem separator_iff (c : Char) : isSeparator c = true ↔ (c = ' ' ∨ c = '\n') := by
  simp [isSeparator]

theorem throw_error_of_separator (rp : redisReply) (text : String)
    (hty : rp.type = REDIS_REPLY_ERROR) (hstr : rp.str = some text)
    (hsep : ∃ c ∈ text.data, c = ' ' ∨ c = '\n') :
    rp.throw_error =
      .thrown (if leadingToken text = "MOVED" then .MovedError (afterFirstSeparator text)
        else if leadingToken text = "ASK" then .AskError (afterFirstSeparator text)
        else .ReplyError text) := by
  have hsep2 : ∃ c ∈ text.data, isSeparator c = true := by
    obtain ⟨c, hc, h⟩ := hsep
    exact ⟨c, hc, (separator_iff c).mpr h⟩
  have hp := parse_error_of_separator text hsep2
  rw [error_map_lookup] at hp
  by_cases h1 : leadingToken text = "MOVED"
  · simp [redisReply.throw_error, hty, hstr, hp, h1]
  · by_cases h2 : leadingToken text = "ASK"
    · simp [redisReply.throw_error, hty, hstr, hp, h2]
    · simp [redisReply.throw_error, hty, hstr, hp, h1, h2]

theorem exec_loop_null_slot (slots : List (Option redisReply)) (replies : List redisReply)
    (hnull : none ∈ slots) :
    TransactionImpl._exec_loop slots replies = .error (.ProtoError "Null sub reply") := by
  induction slots generalizing replies with
  | nil => simp at hnull
  | cons slot rest ih =>
    cases slot with
    | none => simp [TransactionImpl._exec_loop]
    | some sub =>
      have hrest : none ∈ rest := by
        rcases List.mem_cons.mp hnull with h | h
        · exact absurd h (by simp)
        · exact h
      simp [TransactionImpl._exec_loop, ih _ hrest]

theorem open_transaction_on_open (t : TransactionImpl) (connection : Connection)
    (hopen : t._in_transaction = true) :
    t._open_transaction connection =
      (.error (.assertion "!_in_transaction"), t, connection) := by
  simp [TransactionImpl._open_transaction, hopen]

theorem open_transaction_no_assertion (t : TransactionImpl) (connection : Connection)
    (hclosed : t._in_transaction = false) (expr : String) :
    (t._open_transaction connection).1 ≠ .error (.assertion expr) := by
  simp only [TransactionImpl._open_transaction, hclosed]
  simp only [Bool.false_eq_true, if_false]
  split
  · simp
  · split
    · simp
    · split <;> simp

theorem open_transaction_ok_state (t : TransactionImpl) (connection : Connection)
    (hok : (t._open_transaction connection).1 = .ok ()) :
    (t._open_transaction connection).2.1 = { t with _in_transaction := true } := by
  revert hok
  unfold TransactionImpl._open_transaction
  split
  · simp
  · simp only
    split
    · simp
    · split
      · simp
      · split <;> simp

theorem open_transaction_state_or_ok (t : TransactionImpl) (connection : Connection) :
    (t._open_transaction connection).2.1 = t ∨
      (t._open_transaction connection).1 = .ok () := by
  unfold TransactionImpl._open_transaction
  split
  · exact Or.inl rfl
  · simp only
    split
    · exact Or.inl rfl
    · split
      · exact Or.inl rfl
      · split
        · exact Or.inl rfl
        · exact Or.inr rfl

theorem open_transaction_failed_state (t : TransactionImpl) (connection : Connection)
    (hfail : Call.reopens t (.open_transaction connection) = false) :
    (t._open_transaction connection).2.1 = t := by
  rcases open_transaction_state_or_ok t connection with h | h
  · exact h
  · simp [Call.reopens, h] at hfail

theorem apply_calls_closed (t : TransactionImpl) (calls : List Call)
    (hclosed : t._in_transaction = false) (hnever : neverReopened t calls = true) :
    applyCalls t calls = t := by
  induction calls with
  | nil => rfl
  | cons call rest ih =>
    simp only [neverReopened, Bool.and_eq_true, Bool.not_eq_true'] at hnever
    have hstep : call.apply t = t := by
      cases call with
      | exec connection cmd_num =>
        simp [Call.apply, exec_on_closed t connection cmd_num hclosed]
      | discard connection cmd_num =>
        simp [Call.apply, discard_on_closed t connection cmd_num hclosed]
      | open_transaction connection =>
        exact open_transaction_failed_state t connection hnever.1
    simp only [applyCalls, hstep]
    rw [hstep] at hnever
    exact ih hnever.2

/-! ## Theorems for the claims -/

/-- C1: whatever the transaction state, the pipelined flag, the queued command
count and the connection content, after `exec` or `discard` finishes, normally
or by an exception, `_in_transaction` is false. -/
theorem C1_closed_after_terminal_call (t : TransactionImpl) (connection : Connection)
    (cmd_num : Nat) :
    (t.exec connection cmd_num).2.1._in_transaction = false ∧
    (t.discard connection cmd_num).2.1._in_transaction = false :=
  ⟨exec_leaves_closed t connection cmd_num, discard_leaves_closed t connection cmd_num⟩

/-- C2: on an open transaction, once the acknowledgment step has returned, if the
reply read after EXEC is an Array whose slots are the present replies `subs`
(at least one), `exec` returns exactly `subs`, in order, whatever `cmd_num` is,
and leaves the transaction closed; EXEC was sent and one reply consumed. -/
theorem C2_exec_returns_array_in_order (t : TransactionImpl) (connection c1 : Connection)
    (cmd_num : Nat) (rp : redisReply) (subs : List redisReply)
    (rest : List (Except Exception redisReply))
    (hopen : t._in_transaction = true)
    (hack : t._get_queued_replies connection cmd_num = (.ok (), c1))
    (hnext : c1.pending = .ok rp :: rest)
    (harr : rp.type = REDIS_REPLY_ARRAY)
    (helem : rp.element = some (subs.map some))
    (hlen : 1 ≤ subs.length) :
    t.exec connection cmd_num =
      (.ok subs, { t with _in_transaction := false },
        { c1 with pending := rest, sent := c1.sent ++ [.EXEC] }) := by
  rw [exec_after_acks t connection c1 cmd_num hopen hack]
  have hcount : rp.elements ≠ 0 := by
    simp [redisReply.elements, helem]; intro h; simp [h] at hlen
  simp [TransactionImpl._exec, exec_recv_reply c1 rp rest hnext, reply.is_nil, reply.is_array,
    harr, helem, hcount, exec_loop_all_present, REDIS_REPLY_ARRAY, REDIS_REPLY_NIL]

/-- Witness for C2: three queued commands on a piped transaction, three "QUEUED"
acknowledgments, then a 3-element array: exactly those three replies, in
order. -/
theorem C2_exec_returns_array_in_order_witness :
    TransactionImpl.exec ⟨true, true⟩
        ⟨[.ok (statusReply "QUEUED"), .ok (statusReply "QUEUED"), .ok (statusReply "QUEUED"),
          .ok (arrayReply [some (statusReply "OK"), some (integerReply 2), some nilReply])],
          .ClosedError "eof", [.MULTI]⟩ 3 =
      (.ok [statusReply "OK", integerReply 2, nilReply], ⟨false, true⟩,
        ⟨[], .ClosedError "eof", [.MULTI, .EXEC]⟩) :=
  C2_exec_returns_array_in_order ⟨true, true⟩
    ⟨[.ok (statusReply "QUEUED"), .ok (statusReply "QUEUED"), .ok (statusReply "QUEUED"),
      .ok (arrayReply [some (statusReply "OK"), some (integerReply 2), some nilReply])],
      .ClosedError "eof", [.MULTI]⟩
    ⟨[.ok (arrayReply [some (statusReply "OK"), some (integerReply 2), some nilReply])],
      .ClosedError "eof", [.MULTI]⟩
    3 (arrayReply [some (statusReply "OK"), some (integerReply 2), some nilReply])
    [statusReply "OK", integerReply 2, nilReply] [] rfl rfl rfl rfl rfl (by decide)

/-- C3: on an open transaction, once the acknowledgment step has returned, if the
reply read after EXEC is Nil, `exec` throws `WatchError`, returns no replies and
leaves the transaction closed. -/
theorem C3_exec_nil_is_watch_error (t : TransactionImpl) (connection c1 : Connection)
    (cmd_num : Nat) (rp : redisReply) (rest : List (Except Exception redisReply))
    (hopen : t._in_transaction = true)
    (hack : t._get_queued_replies connection cmd_num = (.ok (), c1))
    (hnext : c1.pending = .ok rp :: rest)
    (hnil : rp.type = REDIS_REPLY_NIL) :
    t.exec connection cmd_num =
      (.error .WatchError, { t with _in_transaction := false },
        { c1 with pending := rest, sent := c1.sent ++ [.EXEC] }) := by
  rw [exec_after_acks t connection c1 cmd_num hopen hack]
  simp [TransactionImpl._exec, exec_recv_reply c1 rp rest hnext, reply.is_nil, hnil]

/-- Witness for C3: a non-piped open transaction whose EXEC reply is Nil. -/
theorem C3_exec_nil_is_watch_error_witness :
    TransactionImpl.exec ⟨true, false⟩ ⟨[.ok nilReply], .ClosedError "eof", [.MULTI]⟩ 2 =
      (.error .WatchError, ⟨false, false⟩, ⟨[], .ClosedError "eof", [.MULTI, .EXEC]⟩) :=
  C3_exec_nil_is_watch_error ⟨true, false⟩ ⟨[.ok nilReply], .ClosedError "eof", [.MULTI]⟩
    ⟨[.ok nilReply], .ClosedError "eof", [.MULTI]⟩ 2 nilReply [] rfl rfl rfl rfl

/-- C4: on an open transaction, once the acknowledgment step has returned, if the
reply read after EXEC is not Nil and is not a non-empty array (its shape is not
Array, or its element storage is null, or its element count is 0), `exec` throws
`ProtoError` ("Expect ARRAY reply" for a wrong shape, "Null ARRAY reply"
otherwise) and returns no replies. -/
theorem C4_exec_bad_shape_is_proto_error (t : TransactionImpl) (connection c1 : Connection)
    (cmd_num : Nat) (rp : redisReply) (rest : List (Except Exception redisReply))
    (hopen : t._in_transaction = true)
    (hack : t._get_queued_replies connection cmd_num = (.ok (), c1))
    (hnext : c1.pending = .ok rp :: rest)
    (hnotnil : rp.type ≠ REDIS_REPLY_NIL)
    (hbad : rp.type ≠ REDIS_REPLY_ARRAY ∨ rp.element = none ∨ rp.elements = 0) :
    t.exec connection cmd_num =
      (.error (.ProtoError
          (if rp.type = REDIS_REPLY_ARRAY then "Null ARRAY reply" else "Expect ARRAY reply")),
        { t with _in_transaction := false },
        { c1 with pending := rest, sent := c1.sent ++ [.EXEC] }) := by
  rw [exec_after_acks t connection c1 cmd_num hopen hack]
  by_cases harr : rp.type = REDIS_REPLY_ARRAY
  · have hbad2 : rp.element = none ∨ rp.elements = 0 := by
      rcases hbad with h | h
      · exact absurd harr h
      · exact h
    cases helem : rp.element with
    | none =>
      simp [TransactionImpl._exec, exec_recv_reply c1 rp rest hnext, reply.is_nil,
        reply.is_array, harr, helem, hnotnil] at *
      simp [REDIS_REPLY_ARRAY, REDIS_REPLY_NIL]
    | some slots =>
      have hzero : rp.elements = 0 := by
        rcases hbad2 with h | h
        · simp [helem] at h
        · exact h
      simp [TransactionImpl._exec, exec_recv_reply c1 rp rest hnext, reply.is_nil,
        reply.is_array, harr, helem, hzero]
      simp [REDIS_REPLY_ARRAY, REDIS_REPLY_NIL]
  · simp [TransactionImpl._exec, exec_recv_reply c1 rp rest hnext, reply.is_nil,
      reply.is_array, harr, hnotnil]

/-- Witness for C4: an EXEC reply that is an empty array. -/
theorem C4_exec_bad_shape_is_proto_error_witness :
    TransactionImpl.exec ⟨true, false⟩
        ⟨[.ok (arrayReply [])], .ClosedError "eof", [.MULTI]⟩ 1 =
      (.error (.ProtoError "Null ARRAY reply"), ⟨false, false⟩,
        ⟨[], .ClosedError "eof", [.MULTI, .EXEC]⟩) :=
  C4_exec_bad_shape_is_proto_error ⟨true, false⟩
    ⟨[.ok (arrayReply [])], .ClosedError "eof", [.MULTI]⟩
    ⟨[.ok (arrayReply [])], .ClosedError "eof", [.MULTI]⟩ 1 (arrayReply []) [] rfl rfl rfl
    (by decide) (Or.inr (Or.inr rfl))

/-- Counterexample to C5 as stated: after a first `exec`, the same transaction
object is opened again (MULTI answered "OK"), and a later `exec` on it returns
normally with the reply of the array. -/
theorem C5_reopened_transaction_executes_counterexample :
    ((TransactionImpl._open_transaction
        (TransactionImpl.exec ⟨true, false⟩
          ⟨[.ok (arrayReply [some (integerReply 1)])], .ClosedError "eof", [.MULTI]⟩ 1).2.1
        ⟨[.ok (statusReply "OK")], .ClosedError "eof", []⟩).2.1.exec
      ⟨[.ok (arrayReply [some (integerReply 2)])], .ClosedError "eof", [.MULTI]⟩ 1) =
      (.ok [integerReply 2], ⟨false, false⟩, ⟨[], .ClosedError "eof", [.MULTI, .EXEC]⟩) := by
  rfl

/-- C5, amended: after a first call of `exec` or of `discard`, whatever its
outcome, and after any further calls of `exec`, `discard` and
`_open_transaction` among which no `_open_transaction` returned normally, the
transaction object is still as the first call left it, and a call of `exec` or
of `discard` on it throws `Error` ("No command in transaction"), for every
queued command count and connection content, leaving the transaction and the
connection unchanged. -/
theorem C5_later_terminal_calls_fail_until_reopened (t t1 : TransactionImpl)
    (c c2 : Connection) (n n2 : Nat) (calls : List Call)
    (hfirst : t1 = (t.exec c n).2.1 ∨ t1 = (t.discard c n).2.1)
    (hnever : neverReopened t1 calls = true) :
    applyCalls t1 calls = t1 ∧
    (applyCalls t1 calls).exec c2 n2 =
      (.error (.Error "No command in transaction"), t1, c2) ∧
    (applyCalls t1 calls).discard c2 n2 =
      (.error (.Error "No command in transaction"), t1, c2) := by
  have hclosed : t1._in_transaction = false := by
    rcases hfirst with h | h
    · rw [h]; exact exec_leaves_closed t c n
    · rw [h]; exact discard_leaves_closed t c n
  have hsame := apply_calls_closed t1 calls hclosed hnever
  rw [hsame]
  exact ⟨rfl, exec_on_closed t1 c2 n2 hclosed, discard_on_closed t1 c2 n2 hclosed⟩

/-- Witness for C5, amended: a first `exec` that succeeds, then a `discard`, a
failed open (MULTI answered "NOPE") and an `exec`; a further `exec`, with a
valid array pending, still fails and consumes nothing. -/
theorem C5_later_terminal_calls_fail_until_reopened_witness :
    (applyCalls ⟨false, false⟩
        [.discard ⟨[.ok (statusReply "OK")], .ClosedError "eof", []⟩ 1,
         .open_transaction ⟨[.ok (statusReply "NOPE")], .ClosedError "eof", []⟩,
         .exec ⟨[.ok (arrayReply [some (integerReply 2)])], .ClosedError "eof", []⟩ 1]).exec
        ⟨[.ok (arrayReply [some (integerReply 3)])], .ClosedError "eof", [.MULTI]⟩ 1 =
      (.error (.Error "No command in transaction"), ⟨false, false⟩,
        ⟨[.ok (arrayReply [some (integerReply 3)])], .ClosedError "eof", [.MULTI]⟩) :=
  (C5_later_terminal_calls_fail_until_reopened ⟨true, false⟩ ⟨false, false⟩
    ⟨[.ok (arrayReply [some (integerReply 1)])], .ClosedError "eof", [.MULTI]⟩
    ⟨[.ok (arrayReply [some (integerReply 3)])], .ClosedError "eof", [.MULTI]⟩ 1 1
    [.discard ⟨[.ok (statusReply "OK")], .ClosedError "eof", []⟩ 1,
     .open_transaction ⟨[.ok (statusReply "NOPE")], .ClosedError "eof", []⟩,
     .exec ⟨[.ok (arrayReply [some (integerReply 2)])], .ClosedError "eof", []⟩ 1]
    (Or.inl rfl) rfl).2.1

/-- C6: with `acks` any Status "QUEUED" replies, `exec` (resp. `discard`) on an open
piped transaction reading `acks` followed by `rest`, with `cmd_num` the number
of acknowledgments, has the outcome and leaves the connection of `exec` (resp.
`discard`) on an open non-piped transaction reading `rest` alone; the piped
acknowledgment step consumes exactly `acks` and sends nothing, the non-piped
one consumes nothing. -/
theorem C6_piped_agrees_with_unpiped (acks : List redisReply)
    (rest : List (Except Exception redisReply)) (closed : Exception) (sent : List Command)
    (hq : ∀ q ∈ acks, q.type = REDIS_REPLY_STATUS ∧ q.str = some "QUEUED") :
    TransactionImpl.exec ⟨true, true⟩ ⟨acks.map .ok ++ rest, closed, sent⟩ acks.length =
      ((TransactionImpl.exec ⟨true, false⟩ ⟨rest, closed, sent⟩ acks.length).1,
        ⟨false, true⟩,
        (TransactionImpl.exec ⟨true, false⟩ ⟨rest, closed, sent⟩ acks.length).2.2) ∧
    TransactionImpl.discard ⟨true, true⟩ ⟨acks.map .ok ++ rest, closed, sent⟩ acks.length =
      ((TransactionImpl.discard ⟨true, false⟩ ⟨rest, closed, sent⟩ acks.length).1,
        ⟨false, true⟩,
        (TransactionImpl.discard ⟨true, false⟩ ⟨rest, closed, sent⟩ acks.length).2.2) ∧
    TransactionImpl._get_queued_replies ⟨false, true⟩
        ⟨acks.map .ok ++ rest, closed, sent⟩ acks.length = (.ok (), ⟨rest, closed, sent⟩) ∧
    TransactionImpl._get_queued_replies ⟨false, false⟩
        ⟨rest, closed, sent⟩ acks.length = (.ok (), ⟨rest, closed, sent⟩) := by
  have hloop := get_queued_replies_loop_acks acks rest closed sent 0 hq
  simp only [Nat.add_zero, TransactionImpl._get_queued_replies_loop] at hloop
  have hp : TransactionImpl._get_queued_replies ⟨true, true⟩
      ⟨acks.map .ok ++ rest, closed, sent⟩ acks.length = (.ok (), ⟨rest, closed, sent⟩) := by
    simp [TransactionImpl._get_queued_replies, hloop]
  have hn : TransactionImpl._get_queued_replies ⟨true, false⟩
      ⟨rest, closed, sent⟩ acks.length = (.ok (), ⟨rest, closed, sent⟩) := by
    simp [TransactionImpl._get_queued_replies]
  refine ⟨?_, ?_, ?_, ?_⟩
  · rw [exec_after_acks _ _ _ _ rfl hp, exec_after_acks _ _ _ _ rfl hn]
  · rw [discard_after_acks _ _ _ _ rfl hp, discard_after_acks _ _ _ _ rfl hn]
  · simp [TransactionImpl._get_queued_replies, hloop]
  · simp [TransactionImpl._get_queued_replies]

/-- Witness for C6: two acknowledgments followed by a 1-element array. -/
theorem C6_piped_agrees_with_unpiped_witness :
    TransactionImpl.exec ⟨true, true⟩
        ⟨[.ok (statusReply "QUEUED"), .ok (statusReply "QUEUED"),
          .ok (arrayReply [some (integerReply 7)])], .ClosedError "eof", [.MULTI]⟩ 2 =
      ((TransactionImpl.exec ⟨true, false⟩
          ⟨[.ok (arrayReply [some (integerReply 7)])], .ClosedError "eof", [.MULTI]⟩ 2).1,
        ⟨false, true⟩,
        (TransactionImpl.exec ⟨true, false⟩
          ⟨[.ok (arrayReply [some (integerReply 7)])], .ClosedError "eof", [.MULTI]⟩ 2).2.2) :=
  (C6_piped_agrees_with_unpiped [statusReply "QUEUED", statusReply "QUEUED"]
    [.ok (arrayReply [some (integerReply 7)])] (.ClosedError "eof") [.MULTI]
    (by
      intro q hq
      simp only [List.mem_cons, List.mem_singleton, List.not_mem_nil, or_false, or_self] at hq
      subst hq
      exact ⟨rfl, rfl⟩)).1

/-- C7: on an open piped transaction with `cmd_num >= 1`, if fewer than `cmd_num`
Status "QUEUED" replies are followed by a Status reply whose text is not
"QUEUED", both `exec` and `discard` throw `Error` with message
"Invalid QUEUED reply: " followed by that text; the log of sent commands is
unchanged (EXEC/DISCARD is not sent) and exactly the replies after the
offending one remain pending. -/
theorem C7_bad_ack_aborts_terminal_call (acks : List redisReply) (bad : redisReply)
    (text : String) (rest : List (Except Exception redisReply)) (closed : Exception)
    (sent : List Command) (cmd_num : Nat)
    (hq : ∀ q ∈ acks, q.type = REDIS_REPLY_STATUS ∧ q.str = some "QUEUED")
    (hlt : acks.length < cmd_num)
    (hty : bad.type = REDIS_REPLY_STATUS) (hstr : bad.str = some text)
    (hne : text ≠ "QUEUED") :
    TransactionImpl.exec ⟨true, true⟩
        ⟨acks.map .ok ++ .ok bad :: rest, closed, sent⟩ cmd_num =
      (.error (.Error ("Invalid QUEUED reply: " ++ text)), ⟨false, true⟩,
        ⟨rest, closed, sent⟩) ∧
    TransactionImpl.discard ⟨true, true⟩
        ⟨acks.map .ok ++ .ok bad :: rest, closed, sent⟩ cmd_num =
      (.error (.Error ("Invalid QUEUED reply: " ++ text)), ⟨false, true⟩,
        ⟨rest, closed, sent⟩) := by
  obtain ⟨more, hmore⟩ : ∃ more, cmd_num = acks.length + (more + 1) :=
    ⟨cmd_num - acks.length - 1, by omega⟩
  have hstep : TransactionImpl._get_queued_replies_loop
      ⟨.ok bad :: rest, closed, sent⟩ (more + 1) =
      (.error (.Error ("Invalid QUEUED reply: " ++ text)), ⟨rest, closed, sent⟩) := by
    simp only [TransactionImpl._get_queued_replies_loop,
      get_queued_reply_bad bad text rest closed sent hty hstr hne]
  have hloop :=
    (get_queued_replies_loop_acks acks (.ok bad :: rest) closed sent (more + 1) hq).trans hstep
  subst hmore
  constructor
  · simp [TransactionImpl.exec, TransactionImpl._close_transaction,
      TransactionImpl._get_queued_replies, hloop]
  · simp [TransactionImpl.discard, TransactionImpl._close_transaction,
      TransactionImpl._get_queued_replies, hloop]

/-- Witness for C7: three queued commands, one good acknowledgment, then a Status
reply "OK" in place of the second one; the replies after it stay pending. -/
theorem C7_bad_ack_aborts_terminal_call_witness :
    TransactionImpl.exec ⟨true, true⟩
        ⟨[.ok (statusReply "QUEUED"), .ok (statusReply "OK"), .ok (statusReply "QUEUED"),
          .ok nilReply], .ClosedError "eof", [.MULTI]⟩ 3 =
      (.error (.Error "Invalid QUEUED reply: OK"), ⟨false, true⟩,
        ⟨[.ok (statusReply "QUEUED"), .ok nilReply], .ClosedError "eof", [.MULTI]⟩) :=
  (C7_bad_ack_aborts_terminal_call [statusReply "QUEUED"] (statusReply "OK") "OK"
    [.ok (statusReply "QUEUED"), .ok nilReply] (.ClosedError "eof") [.MULTI] 3
    (by
      intro q hq
      simp only [List.mem_singleton] at hq
      subst hq
      exact ⟨rfl, rfl⟩)
    (by decide) rfl rfl (by decide)).1

/-- C8: on an open transaction, `discard` returns no replies (its result type is
the unit type) and leaves the transaction closed for every connection content;
and once the acknowledgment step has returned, it succeeds whenever the reply
read after DISCARD is a Status reply, whatever its text. -/
theorem C8_discard_accepts_any_status (t : TransactionImpl) (connection c1 : Connection)
    (cmd_num : Nat) (rp : redisReply) (text : String)
    (rest : List (Except Exception redisReply))
    (hopen : t._in_transaction = true)
    (hack : t._get_queued_replies connection cmd_num = (.ok (), c1))
    (hnext : c1.pending = .ok rp :: rest)
    (hty : rp.type = REDIS_REPLY_STATUS) (hstr : rp.str = some text) :
    t.discard connection cmd_num =
      (.ok (), { t with _in_transaction := false },
        { c1 with pending := rest, sent := c1.sent ++ [.DISCARD] }) ∧
    ∀ (other : Connection) (n : Nat),
      (t.discard other n).2.1 = { t with _in_transaction := false } := by
  constructor
  · rw [discard_after_acks t connection c1 cmd_num hopen hack]
    simp [TransactionImpl._discard, discard_recv_reply c1 rp rest hnext, reply.parse_void,
      reply.to_status, hty, hstr]
  · intro other n
    exact discard_state_of_open t other n hopen

/-- Witness for C8: a non-piped open transaction whose DISCARD reply is the Status
reply "whatever". -/
theorem C8_discard_accepts_any_status_witness :
    TransactionImpl.discard ⟨true, false⟩
        ⟨[.ok (statusReply "whatever")], .ClosedError "eof", [.MULTI]⟩ 2 =
      (.ok (), ⟨false, false⟩, ⟨[], .ClosedError "eof", [.MULTI, .DISCARD]⟩) :=
  (C8_discard_accepts_any_status ⟨true, false⟩
    ⟨[.ok (statusReply "whatever")], .ClosedError "eof", [.MULTI]⟩
    ⟨[.ok (statusReply "whatever")], .ClosedError "eof", [.MULTI]⟩ 2
    (statusReply "whatever") "whatever" [] rfl rfl rfl rfl rfl).1

/-- C9: on a closed transaction, `_open_transaction` sends MULTI and makes exactly
one receive, for every connection content; if the reply received is a Status
reply with text `text`, the transaction becomes open when `text` is "OK", and
otherwise the call throws `Error` with message "Failed to open transaction: "
followed by `text` and the transaction stays closed. -/
theorem C9_open_transaction_on_status (t : TransactionImpl) (connection : Connection)
    (rp : redisReply) (text : String) (rest : List (Except Exception redisReply))
    (hclosed : t._in_transaction = false)
    (hnext : connection.pending = .ok rp :: rest)
    (hty : rp.type = REDIS_REPLY_STATUS) (hstr : rp.str = some text) :
    t._open_transaction connection =
      (if text = "OK" then
        (.ok (), { t with _in_transaction := true },
          { connection with pending := rest, sent := connection.sent ++ [.MULTI] })
      else
        (.error (.thrown (.Error ("Failed to open transaction: " ++ text))), t,
          { connection with pending := rest, sent := connection.sent ++ [.MULTI] })) ∧
    ∀ other : Connection,
      (t._open_transaction other).2.2 =
        { other with pending := other.pending.tail, sent := other.sent ++ [.MULTI] } := by
  have hrecv : (cmd.multi connection).recv =
      (.ok rp, { connection with pending := rest, sent := connection.sent ++ [.MULTI] }) := by
    simp [cmd.multi, Connection.send, Connection.recv, hnext]
  constructor
  · by_cases htext : text = "OK"
    · simp [TransactionImpl._open_transaction, hclosed, hrecv, reply.to_status, hty, hstr,
        htext]
    · simp [TransactionImpl._open_transaction, hclosed, hrecv, reply.to_status, hty, hstr,
        htext]
  · intro other
    exact open_transaction_connection t other hclosed

/-- Witness for C9: MULTI answered by the Status reply "NOPE". -/
theorem C9_open_transaction_on_status_witness :
    TransactionImpl._open_transaction ⟨false, false⟩
        ⟨[.ok (statusReply "NOPE"), .ok nilReply], .ClosedError "eof", []⟩ =
      (.error (.thrown (.Error "Failed to open transaction: NOPE")), ⟨false, false⟩,
        ⟨[.ok nilReply], .ClosedError "eof", [.MULTI]⟩) :=
  (C9_open_transaction_on_status ⟨false, false⟩
    ⟨[.ok (statusReply "NOPE"), .ok nilReply], .ClosedError "eof", []⟩
    (statusReply "NOPE") "NOPE" [.ok nilReply] rfl rfl rfl rfl).1

/-- C10: for an Error reply whose text is `pre`, then a space or a newline, then a
remainder `r`, with `pre` being "MOVED" (resp. "ASK"), `throw_error` throws
`MovedError` (resp. `AskError`) carrying exactly `r`. -/
theorem C10_redirection_carries_remainder (rp : redisReply) (pre r : String) (sep : Char)
    (hty : rp.type = REDIS_REPLY_ERROR)
    (hsep : sep = ' ' ∨ sep = '\n')
    (hpre : pre = "MOVED" ∨ pre = "ASK")
    (hstr : rp.str = some (pre ++ String.singleton sep ++ r)) :
    rp.throw_error =
      .thrown (if pre = "MOVED" then .MovedError r else .AskError r) := by
  rcases hpre with h | h
  · subst h
    have hp := parse_error_split "MOVED" r sep hsep (by decide)
    simp [redisReply.throw_error, hty, hstr, hp, error_map, List.lookup]
  · subst h
    have hp := parse_error_split "ASK" r sep hsep (by decide)
    simp [redisReply.throw_error, hty, hstr, hp, error_map, List.lookup]

/-- Witness for C10: "MOVED 1234 10.0.0.1:7001" yields `MovedError` with detail
"1234 10.0.0.1:7001". -/
theorem C10_redirection_carries_remainder_witness :
    (errorReply "MOVED 1234 10.0.0.1:7001").throw_error =
      .thrown (.MovedError "1234 10.0.0.1:7001") :=
  C10_redirection_carries_remainder (errorReply "MOVED 1234 10.0.0.1:7001")
    "MOVED" "1234 10.0.0.1:7001" ' ' rfl (Or.inl rfl) (Or.inl rfl) (by decide)

/-- C11: for an Error reply whose text contains a space or a newline and whose
prefix token (the characters before the first of them) is neither "MOVED" nor
"ASK", `throw_error` throws `ReplyError` carrying the full original text,
prefix included. -/
theorem C11_other_prefix_keeps_full_text (rp : redisReply) (text : String)
    (hty : rp.type = REDIS_REPLY_ERROR) (hstr : rp.str = some text)
    (hsep : ∃ c ∈ text.data, c = ' ' ∨ c = '\n')
    (hmoved : leadingToken text ≠ "MOVED") (hask : leadingToken text ≠ "ASK") :
    rp.throw_error = .thrown (.ReplyError text) := by
  rw [throw_error_of_separator rp text hty hstr hsep]
  simp [hmoved, hask]

/-- Witness for C11: "ERR something went wrong" yields `ReplyError` with the full
text. -/
theorem C11_other_prefix_keeps_full_text_witness :
    (errorReply "ERR something went wrong").throw_error =
      .thrown (.ReplyError "ERR something went wrong") :=
  C11_other_prefix_keeps_full_text (errorReply "ERR something went wrong")
    "ERR something went wrong" rfl rfl ⟨' ', by decide, Or.inl rfl⟩ (by decide) (by decide)

/-- C12: for an Error reply whose text is present and contains neither a space nor
a newline (in particular any text without whitespace, and the empty text),
`throw_error` throws `ProtoError` ("No Error Prefix: " followed by the text),
not `ReplyError`, `MovedError` or `AskError`. -/
theorem C12_no_separator_is_proto_error (rp : redisReply) (text : String)
    (hty : rp.type = REDIS_REPLY_ERROR) (hstr : rp.str = some text)
    (hnone : ∀ c ∈ text.data, c ≠ ' ' ∧ c ≠ '\n') :
    rp.throw_error = .thrown (.ProtoError ("No Error Prefix: " ++ text)) := by
  have hnone2 : ∀ c ∈ text.data, isSeparator c = false := by
    intro c hc
    have h := hnone c hc
    simp [isSeparator, h.1, h.2]
  simp [redisReply.throw_error, hty, hstr, parse_error_without_separator text hnone2]

/-- Witness for C12: "WEIRD" and the empty text both fail with `ProtoError`. -/
theorem C12_no_separator_is_proto_error_witness :
    (errorReply "WEIRD").throw_error = .thrown (.ProtoError "No Error Prefix: WEIRD") ∧
    (errorReply "").throw_error = .thrown (.ProtoError "No Error Prefix: ") :=
  ⟨C12_no_separator_is_proto_error (errorReply "WEIRD") "WEIRD" rfl rfl (by decide),
   C12_no_separator_is_proto_error (errorReply "") "" rfl rfl (by decide)⟩

/-- C13: for a transport failure with error text present and code `REDIS_ERR_IO`,
`throw_error` throws `TimeoutError` when `errno` is `EAGAIN`, `EWOULDBLOCK` or
`ETIMEDOUT`, and `IoError` for every other `errno`; so it never throws
`IoError` for one of those three. -/
theorem C13_io_code_timeout_or_io (b : Build) (context : redisContext) (errno : Int)
    (err_info text : String)
    (hstr : context.errstr = some text) (hcode : context.err = REDIS_ERR_IO) :
    context.throw_error b errno err_info =
      (if errno = b.EAGAIN ∨ errno = b.EWOULDBLOCK ∨ errno = b.ETIMEDOUT then
        .TimeoutError (err_info ++ ": " ++ text)
      else
        .IoError (err_info ++ ": " ++ text)) := by
  simp [redisContext.throw_error, hstr, hcode]

/-- Witness for C13: a build with `EAGAIN = EWOULDBLOCK = 11`, `ETIMEDOUT = 110`;
the I/O code with `errno = 110` is a timeout. -/
theorem C13_io_code_timeout_or_io_witness :
    redisContext.throw_error ⟨11, 11, 110, true⟩ ⟨1, some "Resource unavailable"⟩ 110
        "Failed to get reply" =
      .TimeoutError "Failed to get reply: Resource unavailable" :=
  C13_io_code_timeout_or_io ⟨11, 11, 110, true⟩ ⟨1, some "Resource unavailable"⟩ 110
    "Failed to get reply" "Resource unavailable" rfl rfl

/-- C14: for a transport failure with error text present and a code other than
`REDIS_ERR_IO`, the exception is fixed by the code and is the same for every
`errno`: `REDIS_ERR_EOF` gives `ClosedError`, `REDIS_ERR_PROTOCOL` gives
`ProtoError`, `REDIS_ERR_OOM` gives `OomError`, `REDIS_ERR_TIMEOUT` (where the
build defines it) gives `TimeoutError`, and every other code, `REDIS_ERR_OTHER`
and 0 included, gives `Error`. -/
theorem C14_other_codes_ignore_errno (b : Build) (context : redisContext) (errno : Int)
    (err_info text : String)
    (hstr : context.errstr = some text) (hcode : context.err ≠ REDIS_ERR_IO) :
    context.throw_error b errno err_info =
      (if context.err = REDIS_ERR_EOF then .ClosedError (err_info ++ ": " ++ text)
       else if context.err = REDIS_ERR_PROTOCOL then .ProtoError (err_info ++ ": " ++ text)
       else if context.err = REDIS_ERR_OOM then .OomError (err_info ++ ": " ++ text)
       else if b.has_REDIS_ERR_TIMEOUT = true ∧ context.err = REDIS_ERR_TIMEOUT then
         .TimeoutError (err_info ++ ": " ++ text)
       else
         .Error (if context.err = REDIS_ERR_OTHER then err_info ++ ": " ++ text
                 else "unknown error code: " ++ (err_info ++ ": " ++ text))) ∧
    ∀ errno2 : Int,
      context.throw_error b errno2 err_info = context.throw_error b errno err_info := by
  constructor
  · simp only [redisContext.throw_error, hstr, hcode, if_false]
    simp only [REDIS_ERR_EOF, REDIS_ERR_IO, REDIS_ERR_PROTOCOL, REDIS_ERR_OOM,
      REDIS_ERR_OTHER, REDIS_ERR_TIMEOUT] at hcode ⊢
    by_cases h1 : context.err = 3
    · simp [h1]
    · by_cases h2 : context.err = 4
      · simp [h2]
      · by_cases h3 : context.err = 5
        · simp [h3]
        · by_cases h4 : context.err = 2
          · simp [h4]
          · by_cases h5 : b.has_REDIS_ERR_TIMEOUT = true ∧ context.err = 6
            · simp [h1, h2, h3, h4, h5]
            · simp [h1, h2, h3, h4, h5]
  · intro errno2
    simp [redisContext.throw_error, hstr, hcode]

/-- Witness for C14: the end-of-stream code gives `ClosedError`, whatever `errno`
is (here `ETIMEDOUT`). -/
theorem C14_other_codes_ignore_errno_witness :
    redisContext.throw_error ⟨11, 11, 110, true⟩ ⟨3, some "Server closed the connection"⟩ 110
        "Failed to get reply" =
      .ClosedError "Failed to get reply: Server closed the connection" :=
  (C14_other_codes_ignore_errno ⟨11, 11, 110, true⟩
    ⟨3, some "Server closed the connection"⟩ 110 "Failed to get reply"
    "Server closed the connection" rfl (by decide)).1

/-- Counterexample to C15 as stated: with label "connect", text "boom" and the
unrecognized code 7, the message is "unknown error code: connect: boom", which
does not begin with the label. -/
theorem C15_message_begins_with_label_counterexample :
    (redisContext.throw_error ⟨11, 11, 110, true⟩ ⟨7, some "boom"⟩ 0 "connect").message =
      some "unknown error code: connect: boom" ∧
    ¬ ("connect".data <+: "unknown error code: connect: boom".data) := by
  decide

/-- C15, amended: for a transport failure with label `err_info` and error text
`text`, the message is `err_info`, a colon and a space, then `text`, when the
code is `REDIS_ERR_IO`, `REDIS_ERR_EOF`, `REDIS_ERR_PROTOCOL`, `REDIS_ERR_OOM`,
`REDIS_ERR_OTHER` or (where the build defines it) `REDIS_ERR_TIMEOUT`; for
every other code it is that same text preceded by "unknown error code: ". -/
theorem C15_message_layout (b : Build) (context : redisContext) (errno : Int)
    (err_info text : String) (hstr : context.errstr = some text) :
    (context.throw_error b errno err_info).message =
      some (if context.err = REDIS_ERR_IO ∨ context.err = REDIS_ERR_EOF ∨
              context.err = REDIS_ERR_PROTOCOL ∨ context.err = REDIS_ERR_OOM ∨
              context.err = REDIS_ERR_OTHER ∨
              (b.has_REDIS_ERR_TIMEOUT = true ∧ context.err = REDIS_ERR_TIMEOUT) then
          err_info ++ ": " ++ text
        else
          "unknown error code: " ++ (err_info ++ ": " ++ text)) := by
  simp only [redisContext.throw_error, hstr, REDIS_ERR_EOF, REDIS_ERR_IO, REDIS_ERR_PROTOCOL,
    REDIS_ERR_OOM, REDIS_ERR_OTHER, REDIS_ERR_TIMEOUT]
  by_cases h0 : context.err = 1
  · by_cases he : errno = b.EAGAIN ∨ errno = b.EWOULDBLOCK ∨ errno = b.ETIMEDOUT
    · simp [h0, he, Exception.message]
    · simp [h0, he, Exception.message]
  · by_cases h1 : context.err = 3
    · simp [h1, Exception.message]
    · by_cases h2 : context.err = 4
      · simp [h2, Exception.message]
      · by_cases h3 : context.err = 5
        · simp [h3, Exception.message]
        · by_cases h4 : context.err = 2
          · simp [h4, Exception.message]
          · by_cases h5 : b.has_REDIS_ERR_TIMEOUT = true ∧ context.err = 6
            · simp [h0, h1, h2, h3, h4, h5, Exception.message]
            · simp [h0, h1, h2, h3, h4, h5, Exception.message]

/-- Witness for C15, amended: the out-of-memory code with label "connect" and text
"boom" gives the message "connect: boom". -/
theorem C15_message_layout_witness :
    (redisContext.throw_error ⟨11, 11, 110, true⟩ ⟨5, some "boom"⟩ 0 "connect").message =
      some "connect: boom" :=
  C15_message_layout ⟨11, 11, 110, true⟩ ⟨5, some "boom"⟩ 0 "connect" "boom" rfl

/-- C16: for a transport failure without error text, `throw_error` throws `Error`
for every code and every `errno`, with message the label followed by
": null error message: " and the decimal rendering of the code. -/
theorem C16_null_text_is_generic (b : Build) (context : redisContext) (errno : Int)
    (err_info : String) (hstr : context.errstr = none) :
    context.throw_error b errno err_info =
      .Error (err_info ++ ": null error message: " ++ to_string context.err) := by
  simp [redisContext.throw_error, hstr]

/-- Witness for C16: the I/O code with a timed-out `errno` and no text is still
`Error`, with the code 1 in the message. -/
theorem C16_null_text_is_generic_witness :
    redisContext.throw_error ⟨11, 11, 110, true⟩ ⟨1, none⟩ 110 "connect" =
      .Error "connect: null error message: 1" :=
  C16_null_text_is_generic ⟨11, 11, 110, true⟩ ⟨1, none⟩ 110 "connect" rfl

/-- C17: `_open_transaction` on an open transaction fails the assertion
`!_in_transaction` with the transaction and the connection untouched (MULTI is
not sent, no reply is read); on a closed transaction the assertion never
fails; and after an open that returned normally, a second open with no
terminal call in between fails that assertion. -/
theorem C17_open_on_open_fails_assertion (piped : Bool) (connection c2 : Connection) :
    TransactionImpl._open_transaction ⟨true, piped⟩ connection =
      (.error (.assertion "!_in_transaction"), ⟨true, piped⟩, connection) ∧
    (∀ expr : String,
      (TransactionImpl._open_transaction ⟨false, piped⟩ connection).1 ≠
        .error (.assertion expr)) ∧
    ((TransactionImpl._open_transaction ⟨false, piped⟩ connection).1 = .ok () →
      (TransactionImpl._open_transaction ⟨false, piped⟩ connection).2.1._open_transaction c2 =
        (.error (.assertion "!_in_transaction"), ⟨true, piped⟩, c2)) := by
  refine ⟨open_transaction_on_open _ _ rfl, ?_, ?_⟩
  · intro expr
    exact open_transaction_no_assertion _ _ rfl expr
  · intro hok
    rw [open_transaction_ok_state _ _ hok]
    exact open_transaction_on_open _ _ rfl

/-- Witness for C17: MULTI answered "OK" opens the transaction; a second open, with
another "OK" pending, fails the assertion and reads nothing. -/
theorem C17_open_on_open_fails_assertion_witness :
    (TransactionImpl._open_transaction ⟨false, false⟩
        ⟨[.ok (statusReply "OK")], .ClosedError "eof", []⟩).2.1._open_transaction
        ⟨[.ok (statusReply "OK")], .ClosedError "eof", [.MULTI]⟩ =
      (.error (.assertion "!_in_transaction"), ⟨true, false⟩,
        ⟨[.ok (statusReply "OK")], .ClosedError "eof", [.MULTI]⟩) :=
  (C17_open_on_open_fails_assertion false
    ⟨[.ok (statusReply "OK")], .ClosedError "eof", []⟩
    ⟨[.ok (statusReply "OK")], .ClosedError "eof", [.MULTI]⟩).2.2 rfl

/-- C18: on an open transaction, once the acknowledgment step has returned, if the
reply read after EXEC is an Array whose slots include a null one, `exec` throws
`ProtoError` ("Null sub reply") and returns no replies, the ones before the
null slot included. -/
theorem C18_exec_null_sub_reply (t : TransactionImpl) (connection c1 : Connection)
    (cmd_num : Nat) (rp : redisReply) (slots : List (Option redisReply))
    (rest : List (Except Exception redisReply))
    (hopen : t._in_transaction = true)
    (hack : t._get_queued_replies connection cmd_num = (.ok (), c1))
    (hnext : c1.pending = .ok rp :: rest)
    (harr : rp.type = REDIS_REPLY_ARRAY)
    (helem : rp.element = some slots)
    (hnull : none ∈ slots) :
    t.exec connection cmd_num =
      (.error (.ProtoError "Null sub reply"), { t with _in_transaction := false },
        { c1 with pending := rest, sent := c1.sent ++ [.EXEC] }) := by
  rw [exec_after_acks t connection c1 cmd_num hopen hack]
  have hcount : rp.elements ≠ 0 := by
    simp only [redisReply.elements, helem]
    intro h
    rw [List.length_eq_zero] at h
    rw [h] at hnull
    simp at hnull
  simp [TransactionImpl._exec, exec_recv_reply c1 rp rest hnext, reply.is_nil, reply.is_array,
    harr, helem, hcount, exec_loop_null_slot slots [] hnull, REDIS_REPLY_ARRAY,
    REDIS_REPLY_NIL]

/-- Witness for C18: a 3-element array whose second slot is null; the first
element is not returned. -/
theorem C18_exec_null_sub_reply_witness :
    TransactionImpl.exec ⟨true, false⟩
        ⟨[.ok (arrayReply [some (integerReply 1), none, some (integerReply 3)])],
          .ClosedError "eof", [.MULTI]⟩ 3 =
      (.error (.ProtoError "Null sub reply"), ⟨false, false⟩,
        ⟨[], .ClosedError "eof", [.MULTI, .EXEC]⟩) :=
  C18_exec_null_sub_reply ⟨true, false⟩
    ⟨[.ok (arrayReply [some (integerReply 1), none, some (integerReply 3)])],
      .ClosedError "eof", [.MULTI]⟩
    ⟨[.ok (arrayReply [some (integerReply 1), none, some (integerReply 3)])],
      .ClosedError "eof", [.MULTI]⟩
    3 (arrayReply [some (integerReply 1), none, some (integerReply 3)])
    [some (integerReply 1), none, some (integerReply 3)] [] rfl rfl rfl rfl rfl
    (List.mem_cons_of_mem _ (List.mem_cons_self _ _))

/-- C19: on a closed transaction, for every queued command count and either piped
mode, `exec` and `discard` throw `Error` ("No command in transaction") and
leave the transaction and the connection exactly as they were: nothing is
sent and no pending reply is consumed. -/
theorem C19_terminal_call_on_closed_is_inert (piped : Bool) (connection : Connection)
    (cmd_num : Nat) :
    TransactionImpl.exec ⟨false, piped⟩ connection cmd_num =
      (.error (.Error "No command in transaction"), ⟨false, piped⟩, connection) ∧
    TransactionImpl.discard ⟨false, piped⟩ connection cmd_num =
      (.error (.Error "No command in transaction"), ⟨false, piped⟩, connection) :=
  ⟨exec_on_closed _ connection cmd_num rfl, discard_on_closed _ connection cmd_num rfl⟩

/-- C20: for an Error reply whose text contains a space or a newline, `throw_error`
never throws `ProtoError`; with the leading token being the characters before
the first space or newline, it throws `MovedError` exactly when that token is
"MOVED", `AskError` exactly when it is "ASK" (both carrying the characters
after that first separator), and `ReplyError` with the full text otherwise. -/
theorem C20_classified_by_leading_token (rp : redisReply) (text : String)
    (hty : rp.type = REDIS_REPLY_ERROR) (hstr : rp.str = some text)
    (hsep : ∃ c ∈ text.data, c = ' ' ∨ c = '\n') :
    rp.throw_error =
      .thrown (if leadingToken text = "MOVED" then .MovedError (afterFirstSeparator text)
        else if leadingToken text = "ASK" then .AskError (afterFirstSeparator text)
        else .ReplyError text) :=
  throw_error_of_separator rp text hty hstr hsep

/-- Witness for C20: lower case, a longer token, a leading space and a tab all give
`ReplyError`; a newline after "MOVED" gives `MovedError` with detail "1". -/
theorem C20_classified_by_leading_token_witness :
    (errorReply "moved 1 x").throw_error = .thrown (.ReplyError "moved 1 x") ∧
    (errorReply "MOVEDX 1").throw_error = .thrown (.ReplyError "MOVEDX 1") ∧
    (errorReply " MOVED 1").throw_error = .thrown (.ReplyError " MOVED 1") ∧
    (errorReply "MOVED\t1 x").throw_error = .thrown (.ReplyError "MOVED\t1 x") ∧
    (errorReply "MOVED\n1").throw_error = .thrown (.MovedError "1") :=
  ⟨C20_classified_by_leading_token (errorReply "moved 1 x") "moved 1 x" rfl rfl
      ⟨' ', by decide, Or.inl rfl⟩,
   C20_classified_by_leading_token (errorReply "MOVEDX 1") "MOVEDX 1" rfl rfl
      ⟨' ', by decide, Or.inl rfl⟩,
   C20_classified_by_leading_token (errorReply " MOVED 1") " MOVED 1" rfl rfl
      ⟨' ', by decide, Or.inl rfl⟩,
   C20_classified_by_leading_token (errorReply "MOVED\t1 x") "MOVED\t1 x" rfl rfl
      ⟨' ', by decide, Or.inl rfl⟩,
   C20_classified_by_leading_token (errorReply "MOVED\n1") "MOVED\n1" rfl rfl
      ⟨'\n', by decide, Or.inr rfl⟩⟩

end Redis
